import Mathlib

/-!
# Shallow embedding of `bevy_web_keepalive`

This file embeds the behaviour of the crate's four source files
(`background_worker.rs`, `background_listener.rs`, `background_timer.rs`,
`lib.rs`) and proves properties about them.

Modelling conventions:
* `f64` delays and time deltas are modelled as `ℚ` (the concrete values that
  occur in the code and in the claims are exactly representable).
* A value of type `Option Bool` models access to `window().document().hidden()`:
  `none` means the window or document is unavailable (the Rust code panics via
  `.expect(..)` on that path, modelled as `Option.none` results), and
  `some h` means the document exists and `document.hidden()` returns `h`.
* `world.run_schedule(Main)` is modelled as bumping an invocation counter
  `mainRuns`; `world.trigger(ev)` appends the event payload to a log
  `triggeredEvents`.  Both are observations of what the closures do to the
  Bevy `World`; the systems inside the `Main` schedule are the host's concern.
* Messages arriving at a web worker's `onmessage` handler are modelled by what
  JavaScript's `parseInt` makes of them: `JsMsg.numeric d` is a value whose
  `parseInt` is the integer `d` (`parseInt` truncates a decimal string to its
  leading integer part), and `JsMsg.nonNumeric` is a value whose `parseInt`
  is `NaN`.
-/

/-! ## Rust side: the Bevy world state touched by this crate -/

/-- Embeds the `BackgroundWorker` resource of `background_worker.rs`
(fields `scheduler_delay : f64`, `check_is_in_background : bool`). -/
structure BackgroundWorker where
  scheduler_delay : ℚ
  check_is_in_background : Bool
deriving DecidableEq

/-- Embeds the `WindowVisibility(bool)` resource of `background_listener.rs`
as a plain `Bool` (`true` = visible). -/
abbrev WindowVisibility := Bool

/-- The part of the Bevy `World` this crate's closures read or write:
the two resources, plus observation logs for `run_schedule(Main)` and
`world.trigger`. -/
structure WorldState where
  backgroundWorker : BackgroundWorker
  windowVisibility : WindowVisibility
  mainRuns : ℕ
  triggeredEvents : List WindowVisibility
deriving DecidableEq

/-- Models `world.run_schedule(Main)`: one invocation of the host's update
entry point, observed as a counter increment. -/
def run_main (w : WorldState) : WorldState :=
  { w with mainRuns := w.mainRuns + 1 }

/-! ## Worker-side JavaScript of `background_worker.rs` -/

/-- A JavaScript value as seen by `parseInt` inside the worker scripts. -/
inductive JsMsg where
  | numeric (d : ℤ)
  | nonNumeric
deriving DecidableEq

/-- JavaScript `parseInt`: `some d` for a value parsing to the integer `d`
(decimal strings are truncated to their leading integer part, which is how
`JsMsg.numeric` is produced), `none` for `NaN`. -/
def parseInt : JsMsg → Option ℤ
  | .numeric d => some d
  | .nonNumeric => none

/-- State of the `setTimeout`-based worker script of
`system_init_timeout_background_worker`: the mutable `let delay` variable. -/
structure TimeoutWorkerState where
  delay : ℚ
deriving DecidableEq

/-- Embeds the timeout worker's message handler
`self.onmessage = v => \x7b const _delay = parseInt(v); if (!isNaN(_delay)) delay = _delay; \x7d`. -/
def timeout_onmessage (s : TimeoutWorkerState) (v : JsMsg) : TimeoutWorkerState :=
  match parseInt v with
  | none => s
  | some d => { s with delay := (d : ℚ) }

/-- State of the `setInterval`-based worker script of
`system_init_interval_background_worker`: the delay of the currently armed
interval, and whether the handler installed for that interval posts a tick
when a period elapses. -/
structure IntervalWorkerState where
  delay : ℚ
  handlerPostsTick : Bool
deriving DecidableEq

/-- Embeds evaluating `setInterval(self.postMessage(null), d)` in the interval
worker script.  The first argument is the *call* `self.postMessage(null)`: it
runs once, immediately, posting one tick, and its result `undefined` is what
gets installed as the per-period handler — so the armed interval posts nothing
when a period later elapses.  Returns (ticks posted now, armed state). -/
def setInterval_postMessage_call (d : ℚ) : List Unit × IntervalWorkerState :=
  ([()], { delay := d, handlerPostsTick := false })

/-- Embeds running the interval worker script
`let interval = setInterval(self.postMessage(null), {delay}); self.onmessage = ...`. -/
def interval_worker_init (d : ℚ) : List Unit × IntervalWorkerState :=
  setInterval_postMessage_call d

/-- Ticks posted when one period of the armed interval elapses. -/
def interval_elapse_period (s : IntervalWorkerState) : List Unit :=
  if s.handlerPostsTick then [()] else []

/-- Embeds the interval worker's message handler
`self.onmessage = v => \x7b const delay = parseInt(v); if (isNaN(delay)) return;
clearInterval(interval); interval = setInterval(self.postMessage(null), delay); \x7d`.
Returns (ticks posted during the handler, new armed state). -/
def interval_onmessage (s : IntervalWorkerState) (v : JsMsg) :
    List Unit × IntervalWorkerState :=
  match parseInt v with
  | none => ([], s)
  | some d => setInterval_postMessage_call (d : ℚ)

/-! ## Host side: the tick closure of `background_worker.rs` -/

/-- Embeds the `onmessage` closure installed by both
`system_init_timeout_background_worker` (lines 83–99) and
`system_init_interval_background_worker` (lines 131–147); the two closure
bodies are identical.  `docHidden` models `window().document().hidden()`
(`none` = window/document unavailable, on which path the closure panics via
`.expect`, modelled as `none`). -/
def system_tick_closure (docHidden : Option Bool) (w : WorldState) :
    Option WorldState :=
  let worker := w.backgroundWorker
  if worker.check_is_in_background then
    match docHidden with
    | none => none
    | some hidden => if hidden then some (run_main w) else some w
  else
    some (run_main w)

/-- Delivering a queue of ticks to the closure, one `docHidden` observation
per delivered tick. -/
def deliver_ticks (l : List (Option Bool)) (w : WorldState) : Option WorldState :=
  match l with
  | [] => some w
  | dh :: rest =>
    match system_tick_closure dh w with
    | none => none
    | some w' => deliver_ticks rest w'

/-- The observable gating decision of one tick-handler invocation:
`none` if the closure panics, otherwise `some` of the number of
`run_schedule(Main)` invocations it performed. -/
def tick_decision (docHidden : Option Bool) (w : WorldState) : Option ℕ :=
  (system_tick_closure docHidden w).map (fun w' => w'.mainRuns - w.mainRuns)

/-- Embeds the `BackgroundWorkerPlugin` configuration struct. -/
structure BackgroundWorkerPlugin where
  initial_scheduler_delay : ℚ
  check_is_in_background : Bool
  use_set_timeout : Bool
deriving DecidableEq

/-- Embeds `impl Plugin for BackgroundWorkerPlugin`: `build` inserts the
`BackgroundWorker` resource from the plugin's configuration fields. -/
def BackgroundWorkerPlugin.build (p : BackgroundWorkerPlugin) (w : WorldState) :
    WorldState :=
  { w with
    backgroundWorker :=
      { scheduler_delay := p.initial_scheduler_delay
        check_is_in_background := p.check_is_in_background } }

/-- A runtime write to the `BackgroundWorker` resource's
`check_is_in_background` field (the resource is public and documented as
runtime-controllable). -/
def set_check_is_in_background (w : WorldState) (b : Bool) : WorldState :=
  { w with
    backgroundWorker := { w.backgroundWorker with check_is_in_background := b } }

/-! ## `background_listener.rs` -/

/-- Embeds the `VisibilityChangeListenerPlugin` configuration struct. -/
structure VisibilityChangeListenerPlugin where
  run_main_schedule_on_hide : Bool
deriving DecidableEq

/-- Embeds `impl Plugin for VisibilityChangeListenerPlugin`: `build` inserts
`WindowVisibility(true)`.  The parameter `docHidden` is the platform's actual
visibility at build time; the source never reads it in `build` (no
`window()`/`document()` call occurs there), which the definition reflects by
ignoring it. -/
def VisibilityChangeListenerPlugin.build (p : VisibilityChangeListenerPlugin)
    (docHidden : Option Bool) (w : WorldState) : WorldState :=
  { w with windowVisibility := true }

/-- Embeds the `visibilitychange` closure of
`system_init_active_background_listener` (lines 37–62): read
`document.hidden()` (panicking via `.expect` if window/document is
unavailable, modelled as `none`), write `WindowVisibility := !is_hidden`,
`trigger` the current resource value, then if hidden run the `Main`
schedule once. -/
def active_listener_closure (docHidden : Option Bool) (w : WorldState) :
    Option WorldState :=
  match docHidden with
  | none => none
  | some is_hidden =>
    let w1 := { w with windowVisibility := !is_hidden }
    let w2 := { w1 with triggeredEvents := w1.triggeredEvents ++ [w1.windowVisibility] }
    some (if is_hidden then run_main w2 else w2)

/-- Embeds the `visibilitychange` closure of
`system_init_passive_background_listener` (lines 77–97): as the active one
but without running the `Main` schedule. -/
def passive_listener_closure (docHidden : Option Bool) (w : WorldState) :
    Option WorldState :=
  match docHidden with
  | none => none
  | some is_hidden =>
    let w1 := { w with windowVisibility := !is_hidden }
    some { w1 with triggeredEvents := w1.triggeredEvents ++ [w1.windowVisibility] }

/-! ## `background_timer.rs` -/

/-- One `Update`-schedule frame as seen by `system_background_timer`:
the platform visibility observation (`none` = window or document
unavailable) and `time.delta()`. -/
structure FrameInput where
  docHidden : Option Bool
  delta : ℚ
deriving DecidableEq

/-- Whether this frame observed `window().and_then(document)` present and
`document.hidden()` true (Rust's `is_some_and`). -/
def FrameInput.hiddenObserved (f : FrameInput) : Bool :=
  f.docHidden == some true

/-- Embeds `system_background_timer`: the `BackgroundTimer` stopwatch's
elapsed time after one `Update` run.  `window().and_then(|w| w.document())
.is_some_and(|d| d.hidden())` true ⇒ `timer.0.tick(time.delta())`
(advance by the frame delta); false (document visible, or window/document
unavailable) ⇒ `timer.0.reset()` (back to zero). -/
def system_background_timer (elapsed : ℚ) (f : FrameInput) : ℚ :=
  match f.docHidden with
  | some true => elapsed + f.delta
  | _ => 0

/-- Running `system_background_timer` over a sequence of frames. -/
def run_background_timer (elapsed : ℚ) (l : List FrameInput) : ℚ :=
  l.foldl system_background_timer elapsed

/-! ## Keepalive settings lifecycle

The published crate interface (`lib.rs` re-exports `KeepaliveSettings`) has a
settings/teardown surface that is not present in the sources here; it is
modelled from the spec below. -/

/-- Modelled from the spec: the error taxonomy of §7 for the settings
lifecycle (`InvalidDelay`, `SchedulerDisposed`); no code for it exists under
the crate sources provided (`lib.rs` re-exports `KeepaliveSettings` from
`background_worker`, which does not define it). -/
inductive SchedulerError where
  | InvalidDelay
  | SchedulerDisposed
deriving DecidableEq

/-- Modelled from the spec: §3/§4.4 `KeepaliveSettings` with the scheduler's
activity state — current wake delay, whether the exclusively owned worker
handle is live, whether `dispose()` has run, and a count of host-update
invocations performed by the tick handler. -/
structure SchedulerState where
  wakeDelayMillis : ℚ
  workerHandleLive : Bool
  disposed : Bool
  hostUpdateRuns : ℕ
deriving DecidableEq

/-- Modelled from the spec: §4.4 `initialize(delayMillis)` creates the channel
and stores the handle. -/
def scheduler_create (d : ℚ) : SchedulerState :=
  { wakeDelayMillis := d, workerHandleLive := true, disposed := false
    hostUpdateRuns := 0 }

/-- Modelled from the spec: §4.4 `updateDelay(newDelayMillis)` — after
`dispose()` it fails with `SchedulerDisposed`; otherwise it validates
`newDelayMillis > 0` (else `InvalidDelay`, settings unchanged) and records
the new delay. -/
def updateDelay (s : SchedulerState) (d : ℚ) : Except SchedulerError SchedulerState :=
  if s.disposed then .error .SchedulerDisposed
  else if d ≤ 0 then .error .InvalidDelay
  else .ok { s with wakeDelayMillis := d }

/-- Modelled from the spec: §4.4/§8 `dispose()` terminates the channel and
clears the handle; a second call does not raise (termination is idempotent
per §4.2 `terminate()`). -/
def dispose (s : SchedulerState) : SchedulerState :=
  { s with workerHandleLive := false, disposed := true }

/-- Modelled from the spec: §4.3/§8 the scheduler's tick handler — after
`dispose()` no further `runHostUpdate` invocations occur even for injected
ticks; while active, each tick invokes the host update (gating taken as
always-run, which is the permissive case for the termination-finality claim). -/
def scheduler_on_tick (s : SchedulerState) : SchedulerState :=
  if s.disposed then s else { s with hostUpdateRuns := s.hostUpdateRuns + 1 }

/-- Injecting `n` tick messages into the scheduler. -/
def inject_ticks (s : SchedulerState) : ℕ → SchedulerState
  | 0 => s
  | n + 1 => inject_ticks (scheduler_on_tick s) n

/-! ## Helper lemmas -/

lemma scheduler_on_tick_disposed (s : SchedulerState) (h : s.disposed = true) :
    scheduler_on_tick s = s := by
  simp [scheduler_on_tick, h]

lemma inject_ticks_disposed (s : SchedulerState) (h : s.disposed = true) :
    ∀ n, inject_ticks s n = s := by
  intro n
  induction n with
  | zero => rfl
  | succ n ih => rw [inject_ticks, scheduler_on_tick_disposed s h, ih]

lemma run_main_backgroundWorker (w : WorldState) :
    (run_main w).backgroundWorker = w.backgroundWorker := rfl

lemma deliver_ticks_always_run (l : List (Option Bool)) (w : WorldState)
    (h : w.backgroundWorker.check_is_in_background = false) :
    (deliver_ticks l w).map WorldState.mainRuns = some (w.mainRuns + l.length) := by
  induction l generalizing w with
  | nil => simp [deliver_ticks]
  | cons dh rest ih =>
    rw [deliver_ticks]
    rw [show system_tick_closure dh w = some (run_main w) by
      simp [system_tick_closure, h]]
    rw [ih (run_main w) (by rw [run_main_backgroundWorker]; exact h)]
    simp [run_main]
    omega

/-! ## Claims -/

/-- C1 (counterexample): the timeout worker's message handler accepts a
message whose parsed delay is `-5` — a value `≤ 0`, which the claim says
must be ignored — and replaces the active delay `200` with it. -/
theorem C1_counterexample :
    parseInt (JsMsg.numeric (-5)) = some (-5) ∧
    (-5 : ℤ) ≤ 0 ∧
    timeout_onmessage { delay := 200 } (JsMsg.numeric (-5)) = { delay := -5 } := by
  refine ⟨rfl, by decide, ?_⟩
  simp [timeout_onmessage, parseInt]

/-- C1 (amended): both worker message handlers ignore a message exactly when
`parseInt` yields `NaN`, leaving the active delay unchanged; a message whose
`parseInt` yields any integer `d` — positivity is not checked, so `d` may be
zero or negative — replaces the active delay with `d`. -/
theorem C1_amended_delay_validation (s : TimeoutWorkerState)
    (t : IntervalWorkerState) (v : JsMsg) :
    (parseInt v = none →
      timeout_onmessage s v = s ∧ interval_onmessage t v = ([], t)) ∧
    (∀ d : ℤ, parseInt v = some d →
      (timeout_onmessage s v).delay = (d : ℚ) ∧
      (interval_onmessage t v).2.delay = (d : ℚ)) := by
  cases v with
  | nonNumeric => exact ⟨fun _ => ⟨rfl, rfl⟩, fun d h => by simp [parseInt] at h⟩
  | numeric d0 =>
    refine ⟨fun h => by simp [parseInt] at h, fun d h => ?_⟩
    simp [parseInt] at h
    subst h
    exact ⟨rfl, rfl⟩

/-- C1 (witness for the amended theorem). -/
theorem C1_amended_delay_validation_witness :
    timeout_onmessage ⟨200⟩ JsMsg.nonNumeric = ⟨200⟩ ∧
    (timeout_onmessage ⟨200⟩ (JsMsg.numeric 7)).delay = ((7 : ℤ) : ℚ) :=
  ⟨((C1_amended_delay_validation ⟨200⟩ ⟨200, false⟩ JsMsg.nonNumeric).1 rfl).1,
   ((C1_amended_delay_validation ⟨200⟩ ⟨200, false⟩ (JsMsg.numeric 7)).2 7 rfl).1⟩

/-- C2 (code bug): the interval worker script passes the *call*
`self.postMessage(null)` — not a function — as `setInterval`'s handler, so at
delay `100` the script posts one tick immediately at evaluation, posts no
tick when a period of the armed interval elapses, and posts one immediate
spurious tick on every accepted `ControlMessage`, contradicting the
documented one-tick-per-period loop. -/
theorem C2_interval_worker_tick_behaviour :
    (interval_worker_init 100).1 = [()] ∧
    interval_elapse_period (interval_worker_init 100).2 = [] ∧
    (interval_onmessage (interval_worker_init 100).2 (JsMsg.numeric 50)).1 = [()] :=
  ⟨rfl, rfl, rfl⟩

/-- C3 (counterexample): configure the plugin with
`check_is_in_background = true`; a foreground tick is then skipped (second
conjunct).  After a later runtime write of `check_is_in_background := false`
to the `BackgroundWorker` resource, the very same foreground tick runs the
`Main` schedule (first conjunct) — so a later action does change which policy
the tick handler applies. -/
theorem C3_counterexample :
    system_tick_closure (some false)
        (set_check_is_in_background
          (BackgroundWorkerPlugin.build ⟨100, true, true⟩ ⟨⟨16, true⟩, true, 0, []⟩) false)
      = some (run_main (set_check_is_in_background
          (BackgroundWorkerPlugin.build ⟨100, true, true⟩ ⟨⟨16, true⟩, true, 0, []⟩) false)) ∧
    system_tick_closure (some false)
        (BackgroundWorkerPlugin.build ⟨100, true, true⟩ ⟨⟨16, true⟩, true, 0, []⟩)
      = some (BackgroundWorkerPlugin.build ⟨100, true, true⟩ ⟨⟨16, true⟩, true, 0, []⟩) :=
  ⟨rfl, rfl⟩

/-- C3 (amended): the gating policy applied by the tick handler is the value
of `check_is_in_background` read from the `BackgroundWorker` resource at tick
time: after a runtime write of the field to `b`, the gating decision is
determined by `b` and the platform hidden flag alone, independent of the
plugin configuration the app was built with. -/
theorem C3_gating_policy_read_at_tick_time (p q : BackgroundWorkerPlugin)
    (w w' : WorldState) (b : Bool) (dh : Option Bool) :
    tick_decision dh (set_check_is_in_background (p.build w) b) =
    tick_decision dh (set_check_is_in_background (q.build w') b) := by
  rcases dh with _ | hb
  · cases b <;>
      simp [tick_decision, system_tick_closure, set_check_is_in_background,
        BackgroundWorkerPlugin.build, run_main]
  · cases hb <;> cases b <;>
      simp [tick_decision, system_tick_closure, set_check_is_in_background,
        BackgroundWorkerPlugin.build, run_main]

/-- C4: with `check_is_in_background = true`, a tick observed while the
document is visible leaves the world unchanged (the `Main` schedule is not
invoked), and a tick observed while the document is hidden invokes the `Main`
schedule exactly once. -/
theorem C4_run_only_when_backgrounded (w : WorldState)
    (h : w.backgroundWorker.check_is_in_background = true) :
    system_tick_closure (some false) w = some w ∧
    system_tick_closure (some true) w = some (run_main w) ∧
    (run_main w).mainRuns = w.mainRuns + 1 := by
  refine ⟨?_, ?_, rfl⟩ <;> simp [system_tick_closure, h]

/-- C4 (witness). -/
theorem C4_run_only_when_backgrounded_witness :
    system_tick_closure (some false) ⟨⟨100, true⟩, true, 0, []⟩
      = some ⟨⟨100, true⟩, true, 0, []⟩ ∧
    system_tick_closure (some true) ⟨⟨100, true⟩, true, 0, []⟩
      = some (run_main ⟨⟨100, true⟩, true, 0, []⟩) ∧
    (run_main ⟨⟨100, true⟩, true, 0, []⟩).mainRuns
      = (⟨⟨100, true⟩, true, 0, []⟩ : WorldState).mainRuns + 1 :=
  C4_run_only_when_backgrounded ⟨⟨100, true⟩, true, 0, []⟩ rfl

/-- C5: with `check_is_in_background = false`, every delivered tick invokes
the `Main` schedule exactly once, synchronously within the tick closure
(the closure's result already contains the invocation), and delivering any
queue of `N` ticks yields exactly `N` invocations. -/
theorem C5_always_run_tick_count (w : WorldState) (l : List (Option Bool))
    (h : w.backgroundWorker.check_is_in_background = false) :
    (∀ dh, system_tick_closure dh w = some (run_main w)) ∧
    (run_main w).mainRuns = w.mainRuns + 1 ∧
    (deliver_ticks l w).map WorldState.mainRuns = some (w.mainRuns + l.length) := by
  refine ⟨fun dh => by simp [system_tick_closure, h], rfl, ?_⟩
  exact deliver_ticks_always_run l w h

/-- C5 (witness). -/
theorem C5_always_run_tick_count_witness :
    (∀ dh, system_tick_closure dh ⟨⟨100, false⟩, true, 0, []⟩
      = some (run_main ⟨⟨100, false⟩, true, 0, []⟩)) ∧
    (run_main ⟨⟨100, false⟩, true, 0, []⟩).mainRuns
      = (⟨⟨100, false⟩, true, 0, []⟩ : WorldState).mainRuns + 1 ∧
    (deliver_ticks [some false, none, some true, some false, none]
        ⟨⟨100, false⟩, true, 0, []⟩).map WorldState.mainRuns
      = some ((⟨⟨100, false⟩, true, 0, []⟩ : WorldState).mainRuns
          + [some false, none, some true, some false, none].length) :=
  C5_always_run_tick_count ⟨⟨100, false⟩, true, 0, []⟩
    [some false, none, some true, some false, none] rfl

/-- C6: on every observed `visibilitychange` with the document available,
both listener closures set `WindowVisibility` to the negation of
`document.hidden()` and append exactly one triggered notification, whose
payload is the already-updated resource value (the write happens before the
notification). -/
theorem C6_visibility_handler_update_then_notify (w : WorldState) (hdn : Bool) :
    ((active_listener_closure (some hdn) w).map WorldState.windowVisibility
      = some (!hdn)) ∧
    ((active_listener_closure (some hdn) w).map WorldState.triggeredEvents
      = some (w.triggeredEvents ++ [!hdn])) ∧
    ((passive_listener_closure (some hdn) w).map WorldState.windowVisibility
      = some (!hdn)) ∧
    ((passive_listener_closure (some hdn) w).map WorldState.triggeredEvents
      = some (w.triggeredEvents ++ [!hdn])) := by
  cases hdn <;>
    simp [active_listener_closure, passive_listener_closure, run_main]

/-- C7: after `dispose()`, injecting any number of further tick messages
causes no further host-update invocations; a second `dispose()` is a no-op
returning the same state (and raises nothing); and `updateDelay` after
`dispose()` fails with `SchedulerDisposed`. -/
theorem C7_dispose_finality (s : SchedulerState) (n : ℕ) (d : ℚ) :
    (inject_ticks (dispose s) n).hostUpdateRuns = s.hostUpdateRuns ∧
    dispose (dispose s) = dispose s ∧
    updateDelay (dispose s) d = Except.error SchedulerError.SchedulerDisposed := by
  refine ⟨?_, rfl, rfl⟩
  rw [inject_ticks_disposed (dispose s) rfl n]
  rfl

/-- C8: `VisibilityChangeListenerPlugin::build` inserts
`WindowVisibility(true)` unconditionally: whatever the platform's actual
visibility at build time (even `some true`, a page that starts hidden), the
resource reports visible until a `visibilitychange` event fires. -/
theorem C8_window_visibility_initialized_true
    (p : VisibilityChangeListenerPlugin) (docHidden : Option Bool)
    (w : WorldState) :
    (p.build docHidden w).windowVisibility = true := rfl

/-- C9: one `Update` run of `system_background_timer` advances the stopwatch
by the frame delta when the document is observed hidden and resets it to zero
when the document is visible or the window/document is unavailable; hence
over any frame sequence the stopwatch (started at its default zero) equals
the sum of the deltas of the maximal trailing run of hidden frames — the
current contiguous background stretch only. -/
theorem C9_background_timer_contiguous_stretch (e d : ℚ) (l : List FrameInput) :
    system_background_timer e ⟨some true, d⟩ = e + d ∧
    system_background_timer e ⟨some false, d⟩ = 0 ∧
    system_background_timer e ⟨none, d⟩ = 0 ∧
    run_background_timer 0 l =
      ((l.reverse.takeWhile FrameInput.hiddenObserved).map FrameInput.delta).sum := by
  refine ⟨rfl, rfl, rfl, ?_⟩
  induction l using List.reverseRecOn with
  | nil => rfl
  | append_singleton l a ih =>
    rcases a with ⟨dh, delta⟩
    rcases dh with _ | hb
    · simp [run_background_timer, system_background_timer, FrameInput.hiddenObserved]
    · cases hb
      · simp [run_background_timer, system_background_timer, FrameInput.hiddenObserved]
      · rw [run_background_timer, List.foldl_append] at *
        simp [system_background_timer, FrameInput.hiddenObserved, run_background_timer] at *
        rw [ih]
        ring

/-- C10: the tick closure's gating decision never reads the
`WindowVisibility` resource — for two worlds whose `BackgroundWorker`
resources agree (in particular, worlds differing only in `WindowVisibility`)
and the same platform hidden flag, the decision whether (and how often) to
run the `Main` schedule is identical. -/
theorem C10_tick_decision_ignores_window_visibility (w₁ w₂ : WorldState)
    (dh : Option Bool) (hbw : w₁.backgroundWorker = w₂.backgroundWorker) :
    tick_decision dh w₁ = tick_decision dh w₂ := by
  have hc : w₁.backgroundWorker.check_is_in_background
      = w₂.backgroundWorker.check_is_in_background := by rw [hbw]
  rcases dh with _ | hb
  · cases h2 : w₂.backgroundWorker.check_is_in_background <;>
      simp [tick_decision, system_tick_closure, run_main, hc, h2]
  · cases hb <;> cases h2 : w₂.backgroundWorker.check_is_in_background <;>
      simp [tick_decision, system_tick_closure, run_main, hc, h2]

/-- C10 (witness): two worlds differing only in `WindowVisibility`. -/
theorem C10_tick_decision_ignores_window_visibility_witness :
    tick_decision (some false) ⟨⟨100, true⟩, true, 0, []⟩ =
    tick_decision (some false) ⟨⟨100, true⟩, false, 0, []⟩ :=
  C10_tick_decision_ignores_window_visibility
    ⟨⟨100, true⟩, true, 0, []⟩ ⟨⟨100, true⟩, false, 0, []⟩ (some false) rfl
